import Mathlib

/-!
Shallow embedding of the `zilliz-mcp-server` embedding client
(`src/zilliz_mcp_server/common/embedding_client.py`) and the configuration
loader (`src/zilliz_mcp_server/settings.py`).

Modelling conventions:
* Embedding vectors are ordered sequences of numbers; their numeric values
  are opaque to the client, so entries are modelled as `Int`.
* The remote HTTP call, the local model constructor and the local model's
  `embed` call are external effects; one logical call is parametrised by a
  `CallEnv` giving the outcome of each external interaction during that call.
* A raised Python exception is modelled as `Except.error msg` carrying the
  exception message; mutation of `self` is modelled by returning the updated
  client state alongside the result.
* The local model handle (a `fastembed.TextEmbedding` instance) is opaque;
  handles are identified by a `Nat` tag so that reuse of the same handle is
  observable.
-/

namespace ZillizMcp

/-- An embedding vector: an ordered sequence of numbers (entries opaque, as `Int`). -/
abbrev Embedding := List Int

/-- One item of the provider response `data` array: `{"embedding": [...]}`. -/
structure RemoteItem where
  embedding : Embedding
deriving Repr, DecidableEq

/-- Parsed JSON body of a successful provider response: `{"data": [...]}`. -/
structure RemoteResponse where
  data : List RemoteItem
deriving Repr, DecidableEq

/-- Outcomes of the external interactions available during one client call.

`remoteResult` is the outcome of the HTTP POST to `{base_url}/embeddings`
(`Except.error` covers transport failures, non-success statuses raised by
`raise_for_status`, and missing fields in the body).  `localInitResult` is the
outcome of constructing `TextEmbedding(...)`, yielding a handle tag on
success.  `localEmbedResult m ts` is the outcome of `model.embed(ts)` on the
handle `m`. -/
structure CallEnv where
  remoteResult : Except String RemoteResponse
  localInitResult : Except String Nat
  localEmbedResult : Nat → List String → Except String (List Embedding)

/-- State of `EmbeddingClient` (fields as set by `EmbeddingClient.__init__`). -/
structure EmbeddingClient where
  current_method : String
  auto_fallback : Bool
  openrouter_api_key : String
  openrouter_model : String
  remote_dimension : Int
  openrouter_base_url : String
  local_model : String
  local_dimension : Int
  fastembed_cache_dir : String
  local_model_instance : Option Nat
deriving Repr, DecidableEq

/-- The `ZillizConfig` record (fields as set by `ZillizConfig.__init__`). -/
structure ZillizConfig where
  cloud_uri : String
  token : String
  free_cluster_region : String
  mcp_server_port : Int
  mcp_server_host : String
  enable_auto_embedding : Bool
  embedding_method : String
  auto_fallback_to_local : Bool
  openrouter_api_key : String
  openrouter_embedding_model : String
  remote_embedding_dimension : Int
  local_embedding_model : String
  local_embedding_dimension : Int
  fastembed_cache_dir : String
deriving Repr, DecidableEq

/-- The environment variables read by `ZillizConfig.__init__`
(`none` = variable unset). -/
structure EnvVars where
  zilliz_cloud_uri : Option String
  zilliz_cloud_token : Option String
  zilliz_cloud_free_cluster_region : Option String
  mcp_server_port : Option String
  mcp_server_host : Option String
  enable_auto_embedding : Option String
  embedding_method : Option String
  auto_fallback_to_local : Option String
  openrouter_api_key : Option String
  openrouter_embedding_model : Option String
  remote_embedding_dimension : Option String
  local_embedding_model : Option String
  local_embedding_dimension : Option String
  fastembed_cache_dir : Option String

/-- `os.getenv(name, default)`. -/
def getenv (v : Option String) (dflt : String) : String := v.getD dflt

/-- ASCII lower-casing of one character (model of Python `str.lower` per
character; the configuration values concerned are ASCII). -/
def pyLowerChar (c : Char) : Char :=
  if 'A' ≤ c ∧ c ≤ 'Z' then Char.ofNat (c.toNat + 32) else c

/-- Model of Python `str.lower`. -/
def pyLower (s : String) : String := ⟨s.data.map pyLowerChar⟩

/-- ASCII whitespace, as stripped by Python `str.strip()`. -/
def isSpace (c : Char) : Bool := c = ' ' ∨ c = '\t' ∨ c = '\n' ∨ c = '\r'

/-- Model of Python `str.strip()`: drop leading and trailing whitespace. -/
def pyStrip (s : String) : String :=
  ⟨((s.data.dropWhile isSpace).reverse.dropWhile isSpace).reverse⟩

/-- Decimal value of a digit string (helper for `pyInt?`). -/
def digitsVal (cs : List Char) (acc : Nat) : Option Nat :=
  match cs with
  | [] => some acc
  | c :: rest =>
    if c.isDigit then digitsVal rest (acc * 10 + (c.toNat - 48)) else none

/-- Model of Python `int(s)` restricted to an optional sign and decimal
digits with surrounding whitespace (the general forms are irrelevant to the
configuration values concerned). -/
def pyInt? (s : String) : Option Int :=
  match (((s.data.dropWhile isSpace).reverse.dropWhile isSpace).reverse) with
  | [] => none
  | '-' :: rest =>
    match rest with
    | [] => none
    | _ => (digitsVal rest 0).map fun n => -(n : Int)
  | '+' :: rest =>
    match rest with
    | [] => none
    | _ => (digitsVal rest 0).map fun n => (n : Int)
  | cs => (digitsVal cs 0).map fun n => (n : Int)

/-- `ps` is a prefix of `cs` (helper for `pyStartsWith`). -/
def listStarts : List Char → List Char → Bool
  | [], _ => true
  | _ :: _, [] => false
  | p :: ps, c :: cs => p = c && listStarts ps cs

/-- Model of Python `str.startswith` / the anchored regex match
`re.match(r'^https?://', uri)` is `pyStartsWith uri "http://" ||
pyStartsWith uri "https://"`. -/
def pyStartsWith (s pre : String) : Bool := listStarts pre.data s.data

/-- `int(os.getenv(name, default))` wrapped in the `try/except ValueError`
pattern of `ZillizConfig.__init__`. -/
def parse_int_env (errMsg : String) (v : Option String) (dflt : String) :
    Except String Int :=
  match pyInt? (getenv v dflt) with
  | some n => Except.ok n
  | none => Except.error errMsg

/-- `ZillizConfig._validate_config` (settings.py lines 59-90). -/
def ZillizConfig.validate (c : ZillizConfig) : Except String Unit :=
  if pyStrip c.token = "" then
    Except.error "ZILLIZ_CLOUD_TOKEN is required and cannot be empty. Please set your Zilliz Cloud API token."
  else if c.cloud_uri ≠ "" ∧ ¬ (pyStartsWith c.cloud_uri "http://" ∨ pyStartsWith c.cloud_uri "https://") then
    Except.error "ZILLIZ_CLOUD_URI must be a valid URL starting with http:// or https://"
  else if ¬ (1 ≤ c.mcp_server_port ∧ c.mcp_server_port ≤ 65535) then
    Except.error "MCP_SERVER_PORT must be between 1 and 65535"
  else if c.enable_auto_embedding then
    if c.embedding_method ≠ "remote" ∧ c.embedding_method ≠ "local" then
      Except.error "EMBEDDING_METHOD must be either remote or local"
    else if c.embedding_method = "remote" ∧ pyStrip c.openrouter_api_key = "" ∧ ¬ c.auto_fallback_to_local then
      Except.error "OPENROUTER_API_KEY is required when EMBEDDING_METHOD is remote and AUTO_FALLBACK_TO_LOCAL is false"
    else if c.embedding_method = "remote" ∧ c.remote_embedding_dimension ≤ 0 then
      Except.error "REMOTE_EMBEDDING_DIMENSION must be a positive integer"
    else if c.local_embedding_dimension ≤ 0 then
      Except.error "LOCAL_EMBEDDING_DIMENSION must be a positive integer"
    else
      Except.ok ()
  else
    Except.ok ()

/-- `ZillizConfig.__init__` (settings.py lines 21-57): read the environment
variables with their defaults (integer fields parsed first to last in source
order), then validate. -/
def ZillizConfig.build (e : EnvVars) : Except String ZillizConfig := do
  let port ← parse_int_env "MCP_SERVER_PORT must be a valid integer" e.mcp_server_port "8000"
  let remoteDim ← parse_int_env "REMOTE_EMBEDDING_DIMENSION must be a valid integer" e.remote_embedding_dimension "3072"
  let localDim ← parse_int_env "LOCAL_EMBEDDING_DIMENSION must be a valid integer" e.local_embedding_dimension "768"
  let c : ZillizConfig :=
    { cloud_uri := getenv e.zilliz_cloud_uri "https://api.cloud.zilliz.com"
      token := getenv e.zilliz_cloud_token ""
      free_cluster_region := getenv e.zilliz_cloud_free_cluster_region "gcp-us-west1"
      mcp_server_port := port
      mcp_server_host := getenv e.mcp_server_host "localhost"
      enable_auto_embedding := pyLower (getenv e.enable_auto_embedding "false") == "true"
      embedding_method := pyLower (getenv e.embedding_method "remote")
      auto_fallback_to_local := pyLower (getenv e.auto_fallback_to_local "true") == "true"
      openrouter_api_key := getenv e.openrouter_api_key ""
      openrouter_embedding_model := getenv e.openrouter_embedding_model "openai/text-embedding-3-large"
      remote_embedding_dimension := remoteDim
      local_embedding_model := getenv e.local_embedding_model "nomic-ai/nomic-embed-text-v1.5"
      local_embedding_dimension := localDim
      fastembed_cache_dir := getenv e.fastembed_cache_dir "/Users/user/fastembed_cache" }
  match c.validate with
  | Except.ok _ => Except.ok c
  | Except.error msg => Except.error msg

/-- `EmbeddingClient.__init__` (embedding_client.py lines 15-32): copies the
configured values unchecked; the local model slot starts empty. -/
def EmbeddingClient.init (cfg : ZillizConfig) : EmbeddingClient :=
  { current_method := cfg.embedding_method
    auto_fallback := cfg.auto_fallback_to_local
    openrouter_api_key := cfg.openrouter_api_key
    openrouter_model := cfg.openrouter_embedding_model
    remote_dimension := cfg.remote_embedding_dimension
    openrouter_base_url := "https://openrouter.ai/api/v1"
    local_model := cfg.local_embedding_model
    local_dimension := cfg.local_embedding_dimension
    fastembed_cache_dir := cfg.fastembed_cache_dir
    local_model_instance := none }

/-- `EmbeddingClient._get_local_model` (lines 34-53): return the cached handle
if present; otherwise construct one, caching it on success and wrapping the
failure as an initialization error (the slot stays empty on failure). -/
def get_local_model (c : EmbeddingClient) (initResult : Except String Nat) :
    Except String Nat × EmbeddingClient :=
  match c.local_model_instance with
  | some m => (Except.ok m, c)
  | none =>
    match initResult with
    | Except.ok m => (Except.ok m, { c with local_model_instance := some m })
    | Except.error e =>
      (Except.error ("Local embedding model initialization failed: " ++ e), c)

/-- `EmbeddingClient._generate_remote_embedding` (lines 55-80): on HTTP
success, extract `data["data"][0]["embedding"]` (an empty `data` array raises
an index error); any failure is re-raised unchanged. -/
def generate_remote_embedding (env : CallEnv) : Except String Embedding :=
  match env.remoteResult with
  | Except.error e => Except.error e
  | Except.ok resp =>
    match resp.data with
    | [] => Except.error "list index out of range"
    | item :: _ => Except.ok item.embedding

/-- `EmbeddingClient._generate_remote_embeddings_batch` (lines 82-107): on
HTTP success, extract `[item["embedding"] for item in data["data"]]`. -/
def generate_remote_embeddings_batch (env : CallEnv) :
    Except String (List Embedding) :=
  match env.remoteResult with
  | Except.error e => Except.error e
  | Except.ok resp => Except.ok (resp.data.map RemoteItem.embedding)

/-- `EmbeddingClient._generate_local_embedding` (lines 109-121): obtain the
model handle, embed `[text]`, take element 0; failures are re-raised. -/
def generate_local_embedding (c : EmbeddingClient) (env : CallEnv)
    (text : String) : Except String Embedding × EmbeddingClient :=
  match get_local_model c env.localInitResult with
  | (Except.error e, c1) => (Except.error e, c1)
  | (Except.ok m, c1) =>
    match env.localEmbedResult m [text] with
    | Except.error e => (Except.error e, c1)
    | Except.ok embs =>
      match embs with
      | [] => (Except.error "list index out of range", c1)
      | emb :: _ => (Except.ok emb, c1)

/-- `EmbeddingClient._generate_local_embeddings_batch` (lines 123-135). -/
def generate_local_embeddings_batch (c : EmbeddingClient) (env : CallEnv)
    (texts : List String) : Except String (List Embedding) × EmbeddingClient :=
  match get_local_model c env.localInitResult with
  | (Except.error e, c1) => (Except.error e, c1)
  | (Except.ok m, c1) =>
    match env.localEmbedResult m texts with
    | Except.error e => (Except.error e, c1)
    | Except.ok embs => (Except.ok embs, c1)

/-- `EmbeddingClient.generate_embedding` (lines 137-174): try the backend
matching `current_method`; on failure, if auto-fallback is enabled and the
current method is `remote`, try the local backend, setting
`current_method = "local"` only after that attempt succeeds; otherwise wrap
and re-raise. -/
def generate_embedding (c : EmbeddingClient) (env : CallEnv) (text : String) :
    Except String Embedding × EmbeddingClient :=
  let primary : Except String Embedding × EmbeddingClient :=
    if c.current_method = "remote" then (generate_remote_embedding env, c)
    else generate_local_embedding c env text
  match primary with
  | (Except.ok emb, c1) => (Except.ok emb, c1)
  | (Except.error e, c1) =>
    if c1.auto_fallback ∧ c1.current_method = "remote" then
      match generate_local_embedding c1 env text with
      | (Except.ok emb, c2) => (Except.ok emb, { c2 with current_method := "local" })
      | (Except.error fe, c2) =>
        (Except.error ("Both remote and local embedding failed. Remote: " ++ e ++ ", Local: " ++ fe), c2)
    else
      (Except.error ("Embedding generation failed: " ++ e), c1)

/-- `EmbeddingClient.generate_embeddings_batch` (lines 176-213): same policy
as `generate_embedding`, applied to the whole batch. -/
def generate_embeddings_batch (c : EmbeddingClient) (env : CallEnv)
    (texts : List String) : Except String (List Embedding) × EmbeddingClient :=
  let primary : Except String (List Embedding) × EmbeddingClient :=
    if c.current_method = "remote" then (generate_remote_embeddings_batch env, c)
    else generate_local_embeddings_batch c env texts
  match primary with
  | (Except.ok embs, c1) => (Except.ok embs, c1)
  | (Except.error e, c1) =>
    if c1.auto_fallback ∧ c1.current_method = "remote" then
      match generate_local_embeddings_batch c1 env texts with
      | (Except.ok embs, c2) => (Except.ok embs, { c2 with current_method := "local" })
      | (Except.error fe, c2) =>
        (Except.error ("Both remote and local embedding failed. Remote: " ++ e ++ ", Local: " ++ fe), c2)
    else
      (Except.error ("Batch embedding generation failed: " ++ e), c1)

/-- `EmbeddingClient.switch_method` (lines 215-232): validate the argument,
then set `current_method`; no backend interaction. -/
def switch_method (c : EmbeddingClient) (method : String) :
    Except String String × EmbeddingClient :=
  if method = "remote" ∨ method = "local" then
    (Except.ok ("Embedding method switched from " ++ c.current_method ++ " to " ++ method),
      { c with current_method := method })
  else
    (Except.error "Method must be remote or local", c)

/-- `EmbeddingClient.get_current_method` (lines 234-236). -/
def get_current_method (c : EmbeddingClient) : String := c.current_method

/-- `EmbeddingClient.get_dimension` (lines 238-243). -/
def get_dimension (c : EmbeddingClient) : Int :=
  if c.current_method = "remote" then c.remote_dimension else c.local_dimension

/-- `s` contains `sub` as a contiguous substring. -/
def containsSub (s sub : String) : Prop := ∃ p q, p ++ sub ++ q = s

/-- `s` contains `a` and then `b` as contiguous substrings, in that order. -/
def mentionsBoth (s a b : String) : Prop := ∃ p q r, p ++ a ++ q ++ b ++ r = s

/-! Concrete fixtures used by counterexamples and witnesses. -/

/-- A concrete client currently on the remote method with fallback enabled. -/
def wClient : EmbeddingClient :=
  { current_method := "remote"
    auto_fallback := true
    openrouter_api_key := "k"
    openrouter_model := "openai/text-embedding-3-large"
    remote_dimension := 3
    openrouter_base_url := "https://openrouter.ai/api/v1"
    local_model := "nomic-ai/nomic-embed-text-v1.5"
    local_dimension := 2
    fastembed_cache_dir := "/tmp/fastembed"
    local_model_instance := none }

/-- An environment where the remote call succeeds with three embeddings and
the local backend also works. -/
def wEnvOk : CallEnv :=
  { remoteResult := Except.ok ⟨[⟨[1, 2, 3]⟩, ⟨[4, 5, 6]⟩, ⟨[7, 8, 9]⟩]⟩
    localInitResult := Except.ok 0
    localEmbedResult := fun _ ts => Except.ok (ts.map fun _ => [0, 0]) }

/-- An environment where the remote call fails and the local backend works. -/
def wEnvRemoteFail : CallEnv :=
  { remoteResult := Except.error "boom"
    localInitResult := Except.ok 0
    localEmbedResult := fun _ ts => Except.ok (ts.map fun _ => [0, 0]) }

/-- An environment where both the remote call and the local backend fail. -/
def wEnvBothFail : CallEnv :=
  { remoteResult := Except.error "boom"
    localInitResult := Except.error "no model"
    localEmbedResult := fun _ _ => Except.error "unused" }

/-- Environment variables with auto-embedding disabled (the default) and an
invalid embedding method. -/
def cexEnvVars : EnvVars :=
  { zilliz_cloud_uri := none
    zilliz_cloud_token := some "tok"
    zilliz_cloud_free_cluster_region := none
    mcp_server_port := none
    mcp_server_host := none
    enable_auto_embedding := none
    embedding_method := some "bogus"
    auto_fallback_to_local := none
    openrouter_api_key := none
    openrouter_embedding_model := none
    remote_embedding_dimension := none
    local_embedding_model := none
    local_embedding_dimension := none
    fastembed_cache_dir := none }

/-- The `current_method` of a client built from `cexEnvVars` (an error message
if configuration construction failed). -/
def cexInitMethod : String :=
  match ZillizConfig.build cexEnvVars with
  | Except.ok cfg => (EmbeddingClient.init cfg).current_method
  | Except.error e => e

/-- An environment whose remote call succeeds with a vector shorter than the
configured remote dimension. -/
def cexEnvShort : CallEnv :=
  { remoteResult := Except.ok ⟨[⟨[42]⟩]⟩
    localInitResult := Except.ok 0
    localEmbedResult := fun _ ts => Except.ok (ts.map fun _ => [0, 0]) }

/-- A concrete configuration that passes validation with auto-embedding
enabled. -/
def wConfig : ZillizConfig :=
  { cloud_uri := "https://api.cloud.zilliz.com"
    token := "tok"
    free_cluster_region := "gcp-us-west1"
    mcp_server_port := 8000
    mcp_server_host := "localhost"
    enable_auto_embedding := true
    embedding_method := "remote"
    auto_fallback_to_local := true
    openrouter_api_key := "k"
    openrouter_embedding_model := "openai/text-embedding-3-large"
    remote_embedding_dimension := 3072
    local_embedding_model := "nomic-ai/nomic-embed-text-v1.5"
    local_embedding_dimension := 768
    fastembed_cache_dir := "/tmp/fastembed" }

/-! Helper lemmas about state threading. -/

/-- `_get_local_model` only ever touches the model slot: the method and
fallback-flag fields of the resulting state are unchanged. -/
theorem get_local_model_preserves (c : EmbeddingClient) (r : Except String Nat) :
    ((get_local_model c r).2).current_method = c.current_method ∧
    ((get_local_model c r).2).auto_fallback = c.auto_fallback := by
  unfold get_local_model
  cases hm : c.local_model_instance with
  | some m => simp
  | none => cases r <;> simp

/-- The state after `_generate_local_embedding` is exactly the state after
its `_get_local_model` step. -/
theorem generate_local_embedding_snd (c : EmbeddingClient) (env : CallEnv)
    (text : String) :
    (generate_local_embedding c env text).2 =
      (get_local_model c env.localInitResult).2 := by
  unfold generate_local_embedding
  rcases h : get_local_model c env.localInitResult with ⟨res, c1⟩
  cases res with
  | error e => simp
  | ok m =>
    cases he : env.localEmbedResult m [text] with
    | error e => simp [he]
    | ok embs => cases embs <;> simp [he]

/-- Batch version of `generate_local_embedding_snd`. -/
theorem generate_local_embeddings_batch_snd (c : EmbeddingClient)
    (env : CallEnv) (texts : List String) :
    (generate_local_embeddings_batch c env texts).2 =
      (get_local_model c env.localInitResult).2 := by
  unfold generate_local_embeddings_batch
  rcases h : get_local_model c env.localInitResult with ⟨res, c1⟩
  cases res with
  | error e => simp
  | ok m => cases he : env.localEmbedResult m texts <;> simp [he]

/-- The local backend never changes `current_method` or `auto_fallback`. -/
theorem generate_local_embedding_preserves (c : EmbeddingClient)
    (env : CallEnv) (text : String) :
    ((generate_local_embedding c env text).2).current_method = c.current_method ∧
    ((generate_local_embedding c env text).2).auto_fallback = c.auto_fallback := by
  rw [generate_local_embedding_snd]
  exact get_local_model_preserves c env.localInitResult

/-- Batch version of `generate_local_embedding_preserves`. -/
theorem generate_local_embeddings_batch_preserves (c : EmbeddingClient)
    (env : CallEnv) (texts : List String) :
    ((generate_local_embeddings_batch c env texts).2).current_method = c.current_method ∧
    ((generate_local_embeddings_batch c env texts).2).auto_fallback = c.auto_fallback := by
  rw [generate_local_embeddings_batch_snd]
  exact get_local_model_preserves c env.localInitResult

/-- After `generate_embedding`, the method is either unchanged or `"local"`. -/
theorem generate_embedding_method_cases (c : EmbeddingClient) (env : CallEnv)
    (text : String) :
    ((generate_embedding c env text).2).current_method = c.current_method ∨
    ((generate_embedding c env text).2).current_method = "local" := by
  unfold generate_embedding
  by_cases hm : c.current_method = "remote"
  · rw [if_pos hm]
    cases hr : generate_remote_embedding env with
    | ok emb => simp [hr]
    | error e =>
      simp only [hr]
      by_cases hf : c.auto_fallback ∧ c.current_method = "remote"
      · rw [if_pos hf]
        rcases hl : generate_local_embedding c env text with ⟨res, c2⟩
        cases res with
        | ok emb => simp
        | error fe =>
          left
          have := (generate_local_embedding_preserves c env text).1
          rw [hl] at this
          simpa [hm] using this
      · rw [if_neg hf]; simp
  · rw [if_neg hm]
    rcases hl : generate_local_embedding c env text with ⟨res, c1⟩
    have hpres := (generate_local_embedding_preserves c env text).1
    rw [hl] at hpres
    cases res with
    | ok emb => simpa using Or.inl hpres
    | error e =>
      have hcond : ¬ (c1.auto_fallback ∧ c1.current_method = "remote") := by
        rintro ⟨-, h2⟩
        exact hm (hpres ▸ h2)
      simp only [if_neg hcond]
      exact Or.inl hpres

/-- Batch version of `generate_embedding_method_cases`. -/
theorem generate_embeddings_batch_method_cases (c : EmbeddingClient)
    (env : CallEnv) (texts : List String) :
    ((generate_embeddings_batch c env texts).2).current_method = c.current_method ∨
    ((generate_embeddings_batch c env texts).2).current_method = "local" := by
  unfold generate_embeddings_batch
  by_cases hm : c.current_method = "remote"
  · rw [if_pos hm]
    cases hr : generate_remote_embeddings_batch env with
    | ok embs => simp [hr]
    | error e =>
      simp only [hr]
      by_cases hf : c.auto_fallback ∧ c.current_method = "remote"
      · rw [if_pos hf]
        rcases hl : generate_local_embeddings_batch c env texts with ⟨res, c2⟩
        cases res with
        | ok embs => simp
        | error fe =>
          left
          have := (generate_local_embeddings_batch_preserves c env texts).1
          rw [hl] at this
          simpa [hm] using this
      · rw [if_neg hf]; simp
  · rw [if_neg hm]
    rcases hl : generate_local_embeddings_batch c env texts with ⟨res, c1⟩
    have hpres := (generate_local_embeddings_batch_preserves c env texts).1
    rw [hl] at hpres
    cases res with
    | ok embs => simpa using Or.inl hpres
    | error e =>
      have hcond : ¬ (c1.auto_fallback ∧ c1.current_method = "remote") := by
        rintro ⟨-, h2⟩
        exact hm (hpres ▸ h2)
      simp only [if_neg hcond]
      exact Or.inl hpres

/-- A failed HTTP call is re-raised unchanged by the single remote helper. -/
theorem generate_remote_embedding_err (env : CallEnv) (e : String)
    (h : env.remoteResult = Except.error e) :
    generate_remote_embedding env = Except.error e := by
  simp [generate_remote_embedding, h]

/-- A failed HTTP call is re-raised unchanged by the batch remote helper. -/
theorem generate_remote_embeddings_batch_err (env : CallEnv) (e : String)
    (h : env.remoteResult = Except.error e) :
    generate_remote_embeddings_batch env = Except.error e := by
  simp [generate_remote_embeddings_batch, h]

/-- With the remote method current, fallback enabled and the remote call
failing, `generate_embedding` reduces to the fallback dispatch on the local
backend. -/
theorem generate_embedding_fallback_eq (c : EmbeddingClient) (env : CallEnv)
    (text : String) (e : String)
    (hm : c.current_method = "remote") (hf : c.auto_fallback = true)
    (hre : env.remoteResult = Except.error e) :
    generate_embedding c env text =
      match generate_local_embedding c env text with
      | (Except.ok emb, c2) => (Except.ok emb, { c2 with current_method := "local" })
      | (Except.error fe, c2) =>
        (Except.error ("Both remote and local embedding failed. Remote: " ++ e ++ ", Local: " ++ fe), c2) := by
  unfold generate_embedding
  rw [if_pos hm, generate_remote_embedding_err env e hre]
  simp [hf, hm]

/-- Batch version of `generate_embedding_fallback_eq`. -/
theorem generate_embeddings_batch_fallback_eq (c : EmbeddingClient)
    (env : CallEnv) (texts : List String) (e : String)
    (hm : c.current_method = "remote") (hf : c.auto_fallback = true)
    (hre : env.remoteResult = Except.error e) :
    generate_embeddings_batch c env texts =
      match generate_local_embeddings_batch c env texts with
      | (Except.ok embs, c2) => (Except.ok embs, { c2 with current_method := "local" })
      | (Except.error fe, c2) =>
        (Except.error ("Both remote and local embedding failed. Remote: " ++ e ++ ", Local: " ++ fe), c2) := by
  unfold generate_embeddings_batch
  rw [if_pos hm, generate_remote_embeddings_batch_err env e hre]
  simp [hf, hm]

/-- C1: with `current_method = "remote"` and auto-fallback enabled, if the
remote attempt fails and the local attempt for the same call succeeds, then
`generate_embedding` (resp. `generate_embeddings_batch`) returns the local
vector(s) and `get_current_method` returns `"local"` afterwards; the
transition is conditional on the local attempt succeeding. -/
theorem fallback_success_switches_to_local (c : EmbeddingClient)
    (env : CallEnv) (text : String) (texts : List String) (e : String)
    (v : Embedding) (vs : List Embedding) (c1 c2 : EmbeddingClient)
    (hm : c.current_method = "remote") (hf : c.auto_fallback = true)
    (hre : env.remoteResult = Except.error e)
    (hloc : generate_local_embedding c env text = (Except.ok v, c1))
    (hlocb : generate_local_embeddings_batch c env texts = (Except.ok vs, c2)) :
    generate_embedding c env text = (Except.ok v, { c1 with current_method := "local" }) ∧
    get_current_method (generate_embedding c env text).2 = "local" ∧
    generate_embeddings_batch c env texts = (Except.ok vs, { c2 with current_method := "local" }) ∧
    get_current_method (generate_embeddings_batch c env texts).2 = "local" := by
  have h1 := generate_embedding_fallback_eq c env text e hm hf hre
  have h2 := generate_embeddings_batch_fallback_eq c env texts e hm hf hre
  rw [hloc] at h1
  rw [hlocb] at h2
  exact ⟨h1, by rw [h1]; rfl, h2, by rw [h2]; rfl⟩

/-- C1 witness. -/
theorem fallback_success_switches_to_local_witness :
    generate_embedding wClient wEnvRemoteFail "a" =
      (Except.ok ([0, 0] : Embedding),
        { wClient with current_method := "local", local_model_instance := some 0 }) ∧
    get_current_method (generate_embeddings_batch wClient wEnvRemoteFail ["a", "b"]).2 = "local" := by
  have h := fallback_success_switches_to_local wClient wEnvRemoteFail "a" ["a", "b"]
    "boom" [0, 0] [[0, 0], [0, 0]]
    { wClient with local_model_instance := some 0 }
    { wClient with local_model_instance := some 0 }
    rfl rfl rfl rfl rfl
  exact ⟨h.1, h.2.2.2⟩

/-- C2: a failing call with fallback unavailable re-raises with the original
cause in the message and leaves `current_method` unchanged: (a) remote method
with fallback disabled, (b) local method (no fallback is ever attempted). -/
theorem failure_without_fallback_preserves_method (c : EmbeddingClient)
    (env : CallEnv) (text : String) (texts : List String) (e : String)
    (hre : env.remoteResult = Except.error e) :
    (c.current_method = "remote" → c.auto_fallback = false →
      generate_embedding c env text =
        (Except.error ("Embedding generation failed: " ++ e), c) ∧
      containsSub ("Embedding generation failed: " ++ e) e ∧
      get_current_method (generate_embedding c env text).2 = "remote" ∧
      generate_embeddings_batch c env texts =
        (Except.error ("Batch embedding generation failed: " ++ e), c) ∧
      get_current_method (generate_embeddings_batch c env texts).2 = "remote") ∧
    (∀ el c1, c.current_method = "local" →
      generate_local_embedding c env text = (Except.error el, c1) →
      generate_embedding c env text =
        (Except.error ("Embedding generation failed: " ++ el), c1) ∧
      containsSub ("Embedding generation failed: " ++ el) el ∧
      get_current_method (generate_embedding c env text).2 = "local") := by
  constructor
  · intro hm hf
    have heq : generate_embedding c env text =
        (Except.error ("Embedding generation failed: " ++ e), c) := by
      unfold generate_embedding
      rw [if_pos hm, generate_remote_embedding_err env e hre]
      simp [hf]
    have heqb : generate_embeddings_batch c env texts =
        (Except.error ("Batch embedding generation failed: " ++ e), c) := by
      unfold generate_embeddings_batch
      rw [if_pos hm, generate_remote_embeddings_batch_err env e hre]
      simp [hf]
    refine ⟨heq, ⟨"Embedding generation failed: ", "", by simp⟩, ?_, heqb, ?_⟩
    · rw [heq]; exact hm
    · rw [heqb]; exact hm
  · intro el c1 hm hloc
    have hm' : ¬ c.current_method = "remote" := by rw [hm]; decide
    have hc1 : c1.current_method = "local" := by
      have := (generate_local_embedding_preserves c env text).1
      rw [hloc] at this
      rw [this, hm]
    have hcond : ¬ (c1.auto_fallback ∧ c1.current_method = "remote") := by
      rintro ⟨-, h2⟩
      rw [hc1] at h2
      exact absurd h2 (by decide)
    have heq : generate_embedding c env text =
        (Except.error ("Embedding generation failed: " ++ el), c1) := by
      unfold generate_embedding
      rw [if_neg hm', hloc]
      simp [hcond]
    refine ⟨heq, ⟨"Embedding generation failed: ", "", by simp⟩, ?_⟩
    rw [heq]
    exact hc1

/-- C2 witness. -/
theorem failure_without_fallback_preserves_method_witness :
    generate_embedding { wClient with auto_fallback := false } wEnvRemoteFail "a" =
      (Except.error "Embedding generation failed: boom",
        { wClient with auto_fallback := false }) ∧
    get_current_method
      (generate_embedding { wClient with current_method := "local" } wEnvBothFail "a").2 = "local" := by
  have h1 := (failure_without_fallback_preserves_method
    { wClient with auto_fallback := false } wEnvRemoteFail "a" ["a"] "boom" rfl).1 rfl rfl
  have h2 := (failure_without_fallback_preserves_method
    { wClient with current_method := "local" } wEnvBothFail "a" ["a"] "boom" rfl).2
    "Local embedding model initialization failed: no model"
    { wClient with current_method := "local" } rfl rfl
  exact ⟨h1.1, h2.2.2⟩

/-- C3: with `current_method = "remote"` and fallback enabled, if both the
remote attempt and the local fallback attempt fail, the call raises an error
whose message contains both causes, and `current_method` stays `"remote"`. -/
theorem both_backends_fail_combined_error (c : EmbeddingClient)
    (env : CallEnv) (text : String) (texts : List String)
    (e fe feb : String) (c1 c2 : EmbeddingClient)
    (hm : c.current_method = "remote") (hf : c.auto_fallback = true)
    (hre : env.remoteResult = Except.error e)
    (hloc : generate_local_embedding c env text = (Except.error fe, c1))
    (hlocb : generate_local_embeddings_batch c env texts = (Except.error feb, c2)) :
    generate_embedding c env text =
      (Except.error ("Both remote and local embedding failed. Remote: " ++ e ++ ", Local: " ++ fe), c1) ∧
    mentionsBoth ("Both remote and local embedding failed. Remote: " ++ e ++ ", Local: " ++ fe) e fe ∧
    get_current_method (generate_embedding c env text).2 = "remote" ∧
    generate_embeddings_batch c env texts =
      (Except.error ("Both remote and local embedding failed. Remote: " ++ e ++ ", Local: " ++ feb), c2) ∧
    mentionsBoth ("Both remote and local embedding failed. Remote: " ++ e ++ ", Local: " ++ feb) e feb ∧
    get_current_method (generate_embeddings_batch c env texts).2 = "remote" := by
  have h1 := generate_embedding_fallback_eq c env text e hm hf hre
  have h2 := generate_embeddings_batch_fallback_eq c env texts e hm hf hre
  rw [hloc] at h1
  rw [hlocb] at h2
  have hc1 : c1.current_method = "remote" := by
    have := (generate_local_embedding_preserves c env text).1
    rw [hloc] at this
    rw [this, hm]
  have hc2 : c2.current_method = "remote" := by
    have := (generate_local_embeddings_batch_preserves c env texts).1
    rw [hlocb] at this
    rw [this, hm]
  refine ⟨h1, ⟨"Both remote and local embedding failed. Remote: ", ", Local: ", "", by simp⟩,
    ?_, h2, ⟨"Both remote and local embedding failed. Remote: ", ", Local: ", "", by simp⟩, ?_⟩
  · rw [h1]; exact hc1
  · rw [h2]; exact hc2

/-- C3 witness. -/
theorem both_backends_fail_combined_error_witness :
    generate_embedding wClient wEnvBothFail "a" =
      (Except.error "Both remote and local embedding failed. Remote: boom, Local: Local embedding model initialization failed: no model",
        wClient) ∧
    get_current_method (generate_embeddings_batch wClient wEnvBothFail ["a"]).2 = "remote" := by
  have h := both_backends_fail_combined_error wClient wEnvBothFail "a" ["a"]
    "boom" "Local embedding model initialization failed: no model"
    "Local embedding model initialization failed: no model"
    wClient wClient rfl rfl rfl rfl rfl
  exact ⟨h.1, h.2.2.2.2.2⟩

/-- A successful single local call returns a member of some `embed` output. -/
theorem generate_local_embedding_ok_mem (c : EmbeddingClient) (env : CallEnv)
    (text : String) (v : Embedding) (c1 : EmbeddingClient)
    (h : generate_local_embedding c env text = (Except.ok v, c1)) :
    ∃ m embs, env.localEmbedResult m [text] = Except.ok embs ∧ v ∈ embs := by
  unfold generate_local_embedding at h
  rcases hg : get_local_model c env.localInitResult with ⟨res, cg⟩
  rw [hg] at h
  cases res with
  | error e => simp at h
  | ok m =>
    dsimp only at h
    cases he : env.localEmbedResult m [text] with
    | error e => rw [he] at h; simp at h
    | ok embs =>
      rw [he] at h
      cases embs with
      | nil => simp at h
      | cons v0 vrest =>
        simp at h
        exact ⟨m, v0 :: vrest, he, by simp [h.1]⟩

/-- A successful single remote call returns the embedding of some item of the
provider response's `data` array. -/
theorem generate_remote_embedding_ok_mem (env : CallEnv) (v : Embedding)
    (h : generate_remote_embedding env = Except.ok v) :
    ∃ resp, env.remoteResult = Except.ok resp ∧
      ∃ item ∈ resp.data, item.embedding = v := by
  unfold generate_remote_embedding at h
  cases hr : env.remoteResult with
  | error e => rw [hr] at h; simp at h
  | ok resp =>
    rw [hr] at h
    dsimp only at h
    cases hd : resp.data with
    | nil => rw [hd] at h; simp at h
    | cons item rest =>
      rw [hd] at h
      simp at h
      exact ⟨resp, rfl, item, by simp [hd], h⟩

/-- The three ways `generate_embedding` can succeed: primary remote, fallback
local after a remote failure, or primary local. -/
theorem generate_embedding_ok_cases (c : EmbeddingClient) (env : CallEnv)
    (text : String) (v : Embedding) (c' : EmbeddingClient)
    (h : generate_embedding c env text = (Except.ok v, c')) :
    (c.current_method = "remote" ∧ generate_remote_embedding env = Except.ok v ∧ c' = c) ∨
    (c.current_method = "remote" ∧ (∃ c1, generate_local_embedding c env text = (Except.ok v, c1)) ∧
      c'.current_method = "local") ∨
    (c.current_method ≠ "remote" ∧ ∃ c1, generate_local_embedding c env text = (Except.ok v, c1) ∧ c' = c1) := by
  unfold generate_embedding at h
  by_cases hm : c.current_method = "remote"
  · rw [if_pos hm] at h
    cases hr : generate_remote_embedding env with
    | ok emb =>
      rw [hr] at h
      dsimp only at h
      injection h with h1 h2
      injection h1 with h1
      subst h1
      subst h2
      exact Or.inl ⟨hm, rfl, rfl⟩
    | error e =>
      rw [hr] at h
      dsimp only at h
      by_cases hf : c.auto_fallback ∧ c.current_method = "remote"
      · rw [if_pos hf] at h
        rcases hl : generate_local_embedding c env text with ⟨res, c1⟩
        rw [hl] at h
        cases res with
        | ok emb =>
          dsimp only at h
          injection h with h1 h2
          injection h1 with h1
          subst h1
          exact Or.inr (Or.inl ⟨hm, ⟨c1, rfl⟩, by subst h2; rfl⟩)
        | error fe => simp at h
      · rw [if_neg hf] at h
        simp at h
  · rw [if_neg hm] at h
    rcases hl : generate_local_embedding c env text with ⟨res, c1⟩
    rw [hl] at h
    cases res with
    | ok emb =>
      dsimp only at h
      injection h with h1 h2
      injection h1 with h1
      subst h1
      exact Or.inr (Or.inr ⟨hm, c1, rfl, h2.symm⟩)
    | error e =>
      have hpres : c1.current_method = c.current_method := by
        have hp := (generate_local_embedding_preserves c env text).1
        rw [hl] at hp
        exact hp
      have hcond : ¬ (c1.auto_fallback ∧ c1.current_method = "remote") := by
        rintro ⟨-, h2⟩
        exact hm (hpres ▸ h2)
      dsimp only at h
      rw [if_neg hcond] at h
      simp at h

/-- C4 (counterexample): with auto-embedding disabled (the default),
`ZillizConfig` accepts `EMBEDDING_METHOD=bogus` and `EmbeddingClient.__init__`
copies it into `current_method` unvalidated, so the initial value is not
rejected. -/
theorem current_method_init_not_validated_cex :
    (ZillizConfig.build cexEnvVars).isOk = true ∧
    cexInitMethod = "bogus" ∧
    cexInitMethod ≠ "remote" ∧ cexInitMethod ≠ "local" := by
  exact ⟨rfl, rfl, by decide, by decide⟩

/-- C4 (amended): `current_method` stays within `{"remote", "local"}` under
every operation once it is in that set, `switch_method` rejects any other
value, and a configured method is validated at construction only when
auto-embedding is enabled (the client constructor itself copies the value
unchecked). -/
theorem current_method_invariant_amended (c : EmbeddingClient) (env : CallEnv)
    (text : String) (texts : List String) (m : String) (cfg : ZillizConfig)
    (hc : c.current_method = "remote" ∨ c.current_method = "local") :
    ((generate_embedding c env text).2.current_method = "remote" ∨
      (generate_embedding c env text).2.current_method = "local") ∧
    ((generate_embeddings_batch c env texts).2.current_method = "remote" ∨
      (generate_embeddings_batch c env texts).2.current_method = "local") ∧
    ((switch_method c m).2.current_method = "remote" ∨
      (switch_method c m).2.current_method = "local") ∧
    (m ≠ "remote" ∧ m ≠ "local" →
      (switch_method c m).2 = c ∧ (switch_method c m).1.isOk = false) ∧
    (cfg.enable_auto_embedding = true → cfg.validate = Except.ok () →
      (EmbeddingClient.init cfg).current_method = "remote" ∨
      (EmbeddingClient.init cfg).current_method = "local") := by
  refine ⟨?_, ?_, ?_, ?_, ?_⟩
  · rcases generate_embedding_method_cases c env text with h | h
    · rw [h]; exact hc
    · exact Or.inr h
  · rcases generate_embeddings_batch_method_cases c env texts with h | h
    · rw [h]; exact hc
    · exact Or.inr h
  · unfold switch_method
    by_cases hv : m = "remote" ∨ m = "local"
    · rw [if_pos hv]; simpa using hv
    · rw [if_neg hv]; simpa using hc
  · rintro ⟨h1, h2⟩
    have hv : ¬ (m = "remote" ∨ m = "local") := by rintro (h | h) <;> contradiction
    unfold switch_method
    rw [if_neg hv]
    exact ⟨rfl, rfl⟩
  · intro he hv
    by_cases h1 : cfg.embedding_method = "remote"
    · exact Or.inl (by simpa [EmbeddingClient.init] using h1)
    by_cases h2 : cfg.embedding_method = "local"
    · exact Or.inr (by simpa [EmbeddingClient.init] using h2)
    exfalso
    unfold ZillizConfig.validate at hv
    split_ifs at hv
    simp_all

/-- C4 witness. -/
theorem current_method_invariant_amended_witness :
    ((generate_embedding wClient wEnvOk "a").2.current_method = "remote" ∨
      (generate_embedding wClient wEnvOk "a").2.current_method = "local") ∧
    (switch_method wClient "bogus").2 = wClient ∧
    ((EmbeddingClient.init wConfig).current_method = "remote" ∨
      (EmbeddingClient.init wConfig).current_method = "local") := by
  have h := current_method_invariant_amended wClient wEnvOk "a" ["a"] "bogus" wConfig (Or.inl rfl)
  exact ⟨h.1, (h.2.2.2.1 ⟨by decide, by decide⟩).1, h.2.2.2.2 rfl rfl⟩

/-- C5 (counterexample): the client performs no dimension check — with the
provider returning a 1-element vector while `remote_dimension = 3` and
`local_dimension = 2`, `generate_embedding` succeeds remotely with a vector
matching neither configured dimension. -/
theorem dimension_not_enforced_cex :
    generate_embedding wClient cexEnvShort "a" = (Except.ok ([42] : Embedding), wClient) ∧
    wClient.current_method = "remote" ∧
    (([42] : Embedding).length : Int) ≠ wClient.remote_dimension ∧
    (([42] : Embedding).length : Int) ≠ wClient.local_dimension := by
  exact ⟨rfl, rfl, by decide, by decide⟩

/-- C5 (amended): `generate_embedding` returns backend vectors unchanged, so
provided every vector the backends produce has the respective configured
dimension, a successful call returns a vector whose length is the configured
dimension of the backend that produced it (the remote backend iff the method
was `"remote"` before and after the call); the client itself never checks. -/
theorem generate_embedding_dimension (c : EmbeddingClient) (env : CallEnv)
    (text : String) (v : Embedding) (c' : EmbeddingClient)
    (hdimR : ∀ resp, env.remoteResult = Except.ok resp →
      ∀ item ∈ resp.data, (item.embedding.length : Int) = c.remote_dimension)
    (hdimL : ∀ m ts embs, env.localEmbedResult m ts = Except.ok embs →
      ∀ emb ∈ embs, ((emb : Embedding).length : Int) = c.local_dimension)
    (h : generate_embedding c env text = (Except.ok v, c')) :
    (c.current_method = "remote" ∧ c'.current_method = "remote" →
      (v.length : Int) = c.remote_dimension) ∧
    (¬ (c.current_method = "remote" ∧ c'.current_method = "remote") →
      (v.length : Int) = c.local_dimension) := by
  have hlocal : ∀ c1 : EmbeddingClient,
      generate_local_embedding c env text = (Except.ok v, c1) →
      (v.length : Int) = c.local_dimension := by
    intro c1 hl
    obtain ⟨m, embs, he, hmem⟩ := generate_local_embedding_ok_mem c env text v c1 hl
    exact hdimL m [text] embs he v hmem
  rcases generate_embedding_ok_cases c env text v c' h with
    ⟨hm, hr, rfl⟩ | ⟨hm, ⟨c1, hl⟩, hend⟩ | ⟨hm, c1, hl, hc'⟩
  · obtain ⟨resp, hresp, item, hitem, hv⟩ := generate_remote_embedding_ok_mem env v hr
    constructor
    · intro _
      rw [← hv]
      exact hdimR resp hresp item hitem
    · intro hcon
      exact absurd ⟨hm, hm⟩ hcon
  · constructor
    · rintro ⟨-, h2⟩
      rw [hend] at h2
      exact absurd h2 (by decide)
    · intro _
      exact hlocal c1 hl
  · constructor
    · rintro ⟨h1, -⟩
      exact absurd h1 hm
    · intro _
      exact hlocal c1 hl

/-- C5 witness. -/
theorem generate_embedding_dimension_witness :
    (([1, 2, 3] : Embedding).length : Int) = wClient.remote_dimension := by
  refine (generate_embedding_dimension wClient wEnvOk "a" [1, 2, 3] wClient
    ?_ ?_ rfl).1 ⟨rfl, rfl⟩
  · intro resp hresp
    have hr : Except.ok (⟨[⟨[1, 2, 3]⟩, ⟨[4, 5, 6]⟩, ⟨[7, 8, 9]⟩]⟩ : RemoteResponse) =
        Except.ok resp := hresp
    injection hr with hr
    subst hr
    decide
  · intro m ts embs he
    have he2 : Except.ok (ts.map fun _ => ([0, 0] : Embedding)) = Except.ok embs := he
    injection he2 with he2
    subst he2
    intro emb hmem
    rw [List.mem_map] at hmem
    obtain ⟨x, -, rfl⟩ := hmem
    decide

/-- C6: `switch_method` rejects any value outside `{"remote", "local"}` with
an invalid-argument error and leaves the state unchanged; on a valid value it
sets `current_method` (so `get_current_method` then returns it) and returns a
confirmation; it consults no backend (its definition takes no `CallEnv`). -/
theorem switch_method_spec (c : EmbeddingClient) (m : String) :
    (m ≠ "remote" ∧ m ≠ "local" →
      switch_method c m = (Except.error "Method must be remote or local", c) ∧
      get_current_method (switch_method c m).2 = c.current_method) ∧
    (m = "remote" ∨ m = "local" →
      switch_method c m =
        (Except.ok ("Embedding method switched from " ++ c.current_method ++ " to " ++ m),
          { c with current_method := m }) ∧
      get_current_method (switch_method c m).2 = m) := by
  constructor
  · rintro ⟨h1, h2⟩
    have hv : ¬ (m = "remote" ∨ m = "local") := by rintro (h | h) <;> contradiction
    unfold switch_method
    rw [if_neg hv]
    exact ⟨rfl, rfl⟩
  · intro hv
    unfold switch_method
    rw [if_pos hv]
    exact ⟨rfl, rfl⟩

/-- C6 witness. -/
theorem switch_method_spec_witness :
    switch_method wClient "bogus" = (Except.error "Method must be remote or local", wClient) ∧
    get_current_method (switch_method wClient "local").2 = "local" := by
  exact ⟨((switch_method_spec wClient "bogus").1 ⟨by decide, by decide⟩).1,
    ((switch_method_spec wClient "local").2 (Or.inr rfl)).2⟩

/-- C7: the local model handle is constructed at most once per client: a
present handle is returned as-is (a fresh construction result is ignored);
a successful construction is cached and used by every later call; a failed
construction raises an initialization error, leaves the slot empty, and the
next call retries construction. -/
theorem local_model_init_at_most_once (c : EmbeddingClient)
    (r r2 : Except String Nat) (m : Nat) (e : String) :
    (c.local_model_instance = some m →
      get_local_model c r = (Except.ok m, c)) ∧
    (c.local_model_instance = none → r = Except.ok m →
      get_local_model c r = (Except.ok m, { c with local_model_instance := some m }) ∧
      get_local_model { c with local_model_instance := some m } r2 =
        (Except.ok m, { c with local_model_instance := some m })) ∧
    (c.local_model_instance = none → r = Except.error e →
      get_local_model c r =
        (Except.error ("Local embedding model initialization failed: " ++ e), c) ∧
      (get_local_model c r).2.local_model_instance = none ∧
      (r2 = Except.ok m →
        get_local_model (get_local_model c r).2 r2 =
          (Except.ok m, { c with local_model_instance := some m }))) := by
  refine ⟨?_, ?_, ?_⟩
  · intro hsome
    unfold get_local_model
    rw [hsome]
  · intro hnone hr
    subst hr
    unfold get_local_model
    rw [hnone]
    exact ⟨rfl, rfl⟩
  · intro hnone hr
    subst hr
    have h1 : get_local_model c (Except.error e) =
        (Except.error ("Local embedding model initialization failed: " ++ e), c) := by
      unfold get_local_model
      rw [hnone]
    refine ⟨h1, by rw [h1]; exact hnone, ?_⟩
    intro hr2
    subst hr2
    rw [h1]
    unfold get_local_model
    rw [hnone]

/-- C7 witness. -/
theorem local_model_init_at_most_once_witness :
    get_local_model wClient (Except.ok 5) =
      (Except.ok 5, { wClient with local_model_instance := some 5 }) ∧
    get_local_model { wClient with local_model_instance := some 5 } (Except.ok 7) =
      (Except.ok 5, { wClient with local_model_instance := some 5 }) ∧
    get_local_model wClient (Except.error "x") =
      (Except.error "Local embedding model initialization failed: x", wClient) ∧
    get_local_model wClient (Except.ok 5) =
      (Except.ok 5, { wClient with local_model_instance := some 5 }) := by
  have h1 := (local_model_init_at_most_once wClient (Except.ok 5) (Except.ok 7) 5 "x").2.1 rfl rfl
  have h2 := (local_model_init_at_most_once wClient (Except.error "x") (Except.ok 5) 5 "x").2.2 rfl rfl
  exact ⟨h1.1, h1.2, h2.1, h2.2.2 rfl⟩

/-- C8: a successful remote batch call returns exactly one embedding per
entry of the provider response's `data` array, in order, and
`generate_embeddings_batch` on the remote method passes that list through. -/
theorem remote_batch_one_per_item (c : EmbeddingClient) (env : CallEnv)
    (texts : List String) (resp : RemoteResponse)
    (hre : env.remoteResult = Except.ok resp)
    (hm : c.current_method = "remote") :
    generate_remote_embeddings_batch env = Except.ok (resp.data.map RemoteItem.embedding) ∧
    (resp.data.map RemoteItem.embedding).length = resp.data.length ∧
    generate_embeddings_batch c env texts = (Except.ok (resp.data.map RemoteItem.embedding), c) := by
  have h : generate_remote_embeddings_batch env =
      Except.ok (resp.data.map RemoteItem.embedding) := by
    simp [generate_remote_embeddings_batch, hre]
  refine ⟨h, by simp, ?_⟩
  unfold generate_embeddings_batch
  rw [if_pos hm, h]

/-- C8 witness: a three-text batch against a provider returning three
embeddings yields exactly those 3 vectors in order. -/
theorem remote_batch_one_per_item_witness :
    generate_embeddings_batch wClient wEnvOk ["a", "b", "c"] =
      (Except.ok ([[1, 2, 3], [4, 5, 6], [7, 8, 9]] : List Embedding), wClient) ∧
    ([[1, 2, 3], [4, 5, 6], [7, 8, 9]] : List Embedding).length = ["a", "b", "c"].length := by
  have h := remote_batch_one_per_item wClient wEnvOk ["a", "b", "c"]
    ⟨[⟨[1, 2, 3]⟩, ⟨[4, 5, 6]⟩, ⟨[7, 8, 9]⟩]⟩ rfl rfl
  exact ⟨h.2.2, rfl⟩

/-- C9: neither `generate_embedding` nor `generate_embeddings_batch` ever
moves `current_method` to `"remote"`; from `"local"` it stays `"local"`
under both; only `switch_method` can set `"remote"` again. -/
theorem no_automatic_local_to_remote (c : EmbeddingClient) (env : CallEnv)
    (text : String) (texts : List String) :
    ((generate_embedding c env text).2.current_method = "remote" →
      c.current_method = "remote") ∧
    ((generate_embeddings_batch c env texts).2.current_method = "remote" →
      c.current_method = "remote") ∧
    (c.current_method = "local" →
      (generate_embedding c env text).2.current_method = "local" ∧
      (generate_embeddings_batch c env texts).2.current_method = "local") ∧
    (switch_method c "remote").2.current_method = "remote" := by
  refine ⟨?_, ?_, ?_, ?_⟩
  · intro h
    rcases generate_embedding_method_cases c env text with hc | hc
    · rw [← hc]; exact h
    · rw [hc] at h; exact absurd h (by decide)
  · intro h
    rcases generate_embeddings_batch_method_cases c env texts with hc | hc
    · rw [← hc]; exact h
    · rw [hc] at h; exact absurd h (by decide)
  · intro h
    constructor
    · rcases generate_embedding_method_cases c env text with hc | hc
      · rw [hc, h]
      · exact hc
    · rcases generate_embeddings_batch_method_cases c env texts with hc | hc
      · rw [hc, h]
      · exact hc
  · unfold switch_method
    rw [if_pos (Or.inl rfl)]

/-- C9 witness. -/
theorem no_automatic_local_to_remote_witness :
    (generate_embedding { wClient with current_method := "local" } wEnvOk "a").2.current_method = "local" ∧
    (switch_method { wClient with current_method := "local" } "remote").2.current_method = "remote" := by
  have h := no_automatic_local_to_remote { wClient with current_method := "local" } wEnvOk "a" ["a"]
  exact ⟨(h.2.2.1 rfl).1, h.2.2.2⟩

/-- C10: with any `current_method` other than exactly `"remote"` (also values
outside `{"remote", "local"}`), both generation operations dispatch to the
local backend and the fallback branch is never taken (a failure is wrapped
as a plain generation error, never as a combined one), and `get_dimension`
returns the local dimension. -/
theorem non_remote_dispatches_local (c : EmbeddingClient) (env : CallEnv)
    (text : String) (texts : List String)
    (hm : c.current_method ≠ "remote") :
    (∀ v c1, generate_local_embedding c env text = (Except.ok v, c1) →
      generate_embedding c env text = (Except.ok v, c1)) ∧
    (∀ e c1, generate_local_embedding c env text = (Except.error e, c1) →
      generate_embedding c env text =
        (Except.error ("Embedding generation failed: " ++ e), c1)) ∧
    (∀ vs c1, generate_local_embeddings_batch c env texts = (Except.ok vs, c1) →
      generate_embeddings_batch c env texts = (Except.ok vs, c1)) ∧
    (∀ e c1, generate_local_embeddings_batch c env texts = (Except.error e, c1) →
      generate_embeddings_batch c env texts =
        (Except.error ("Batch embedding generation failed: " ++ e), c1)) ∧
    get_dimension c = c.local_dimension := by
  refine ⟨?_, ?_, ?_, ?_, ?_⟩
  · intro v c1 hl
    unfold generate_embedding
    rw [if_neg hm, hl]
  · intro e c1 hl
    have hpres : c1.current_method = c.current_method := by
      have hp := (generate_local_embedding_preserves c env text).1
      rw [hl] at hp
      exact hp
    have hcond : ¬ (c1.auto_fallback ∧ c1.current_method = "remote") := by
      rintro ⟨-, h2⟩
      exact hm (hpres ▸ h2)
    unfold generate_embedding
    rw [if_neg hm, hl]
    dsimp only
    rw [if_neg hcond]
  · intro vs c1 hl
    unfold generate_embeddings_batch
    rw [if_neg hm, hl]
  · intro e c1 hl
    have hpres : c1.current_method = c.current_method := by
      have hp := (generate_local_embeddings_batch_preserves c env texts).1
      rw [hl] at hp
      exact hp
    have hcond : ¬ (c1.auto_fallback ∧ c1.current_method = "remote") := by
      rintro ⟨-, h2⟩
      exact hm (hpres ▸ h2)
    unfold generate_embeddings_batch
    rw [if_neg hm, hl]
    dsimp only
    rw [if_neg hcond]
  · unfold get_dimension
    rw [if_neg hm]

/-- C10 witness. -/
theorem non_remote_dispatches_local_witness :
    generate_embedding { wClient with current_method := "bogus" } wEnvOk "a" =
      (Except.ok ([0, 0] : Embedding),
        { wClient with current_method := "bogus", local_model_instance := some 0 }) ∧
    get_dimension { wClient with current_method := "bogus" } = 2 := by
  have h := non_remote_dispatches_local { wClient with current_method := "bogus" }
    wEnvOk "a" ["a"] (by decide)
  exact ⟨h.1 [0, 0] { wClient with current_method := "bogus", local_model_instance := some 0 } rfl,
    h.2.2.2.2.trans rfl⟩

end ZillizMcp
